import Mathlib

/-
Verification of the cardfolio portfolio tracker against its specification.

The development shallowly embeds the numeric and list-processing core of the
repository:

* the JavaScript floating-point special values (Infinity, -Infinity, NaN)
  are modelled by `JSNum`, rationals extended with the three special values;
  finite arithmetic is exact rational arithmetic (the properties at stake
  concern special-value propagation and guard conditions, which rounding
  does not affect), and the single IEEE negative zero is identified with
  zero (JavaScript `-0` is falsy and equal to `0`, like our `num 0`);
* decimal strings stored in instrument fields are modelled by their parsed
  numeric values; `parseFloat(x)` of a stored numeric string is the value
  itself;
* JavaScript `undefined` appearing in arithmetic is modelled as `JSNum.nan`
  (it converts to NaN in arithmetic and is falsy, exactly like NaN), while
  `null`/`undefined` used only for presence tests is modelled by `Option`;
* network requests are modelled by passing each `fetch`'s outcome as an
  explicit parameter: `none` stands for a failed request (network error,
  non-2xx status or malformed body, all of which the source catches on the
  same paths), `some payload` for a parsed JSON body;
* `String.toUpperCase` / `toLowerCase` are modelled characterwise
  (`upperChars` / `lowerChars`), which agrees with JavaScript on the ASCII
  tickers and type tags the system manipulates.

Sources embedded: `src/server/routes.ts` (portfolio stats reduce, the
update-prices and create-instrument endpoints), `src/server/storage.ts`
(`MemStorage.getInstrumentByTicker`, `createInstrument`),
`src/client/src/hooks/use-portfolio.ts` (`useInstrumentCards`), and the
two revisions of the financial service (`src/unnamed/part_002`, the current
one, and `src/unnamed/part_003`, the legacy one): `searchYahoo`,
`searchAlphaVantage`, `searchInstrument`, `getCurrentPrice`, `getYahooPrice`,
`updatePrices`, `mapYahooType`.
-/

set_option autoImplicit false

namespace Cardfolio

/-! ### JavaScript number semantics -/

/-- A JavaScript number: an exact rational, or one of the IEEE special
values `Infinity`, `-Infinity`, `NaN`. -/
inductive JSNum where
  | num (q : ℚ)
  | inf
  | ninf
  | nan
deriving DecidableEq

/-- JavaScript truthiness of a number: `0`, `-0` and `NaN` are falsy. -/
def jsTruthy : JSNum → Bool
  | .num q => q != 0
  | .nan => false
  | _ => true

/-- JavaScript `x || 0`. -/
def jsOrZero (x : JSNum) : JSNum := if jsTruthy x then x else .num 0

/-- JavaScript `a || b` on numbers. -/
def jsOr (a b : JSNum) : JSNum := if jsTruthy a then a else b

/-- IEEE negation. -/
def jsNeg : JSNum → JSNum
  | .num q => .num (-q)
  | .inf => .ninf
  | .ninf => .inf
  | .nan => .nan

/-- IEEE addition (exact on finite operands). -/
def jsAdd : JSNum → JSNum → JSNum
  | .nan, _ => .nan
  | _, .nan => .nan
  | .inf, .ninf => .nan
  | .ninf, .inf => .nan
  | .inf, _ => .inf
  | _, .inf => .inf
  | .ninf, _ => .ninf
  | _, .ninf => .ninf
  | .num a, .num b => .num (a + b)

/-- IEEE subtraction. -/
def jsSub (a b : JSNum) : JSNum := jsAdd a (jsNeg b)

/-- IEEE multiplication (exact on finite operands); `Infinity * 0 = NaN`. -/
def jsMul : JSNum → JSNum → JSNum
  | .nan, _ => .nan
  | _, .nan => .nan
  | .num a, .num b => .num (a * b)
  | .inf, .num b => if b > 0 then .inf else if b < 0 then .ninf else .nan
  | .num a, .inf => if a > 0 then .inf else if a < 0 then .ninf else .nan
  | .ninf, .num b => if b > 0 then .ninf else if b < 0 then .inf else .nan
  | .num a, .ninf => if a > 0 then .ninf else if a < 0 then .inf else .nan
  | .inf, .inf => .inf
  | .inf, .ninf => .ninf
  | .ninf, .inf => .ninf
  | .ninf, .ninf => .inf

/-- IEEE division (exact on finite operands): `x / 0` is `Infinity` for
`x > 0`, `-Infinity` for `x < 0` and `NaN` for `x = 0`. -/
def jsDiv : JSNum → JSNum → JSNum
  | .nan, _ => .nan
  | _, .nan => .nan
  | .num a, .num b =>
      if b = 0 then (if a > 0 then .inf else if a < 0 then .ninf else .nan)
      else .num (a / b)
  | .num _, .inf => .num 0
  | .num _, .ninf => .num 0
  | .inf, .num b => if b ≥ 0 then .inf else .ninf
  | .ninf, .num b => if b ≥ 0 then .ninf else .inf
  | .inf, _ => .nan
  | .ninf, _ => .nan

/-- JavaScript `x > 0` (false on `NaN`). -/
def jsGtZero : JSNum → Bool
  | .num q => q > 0
  | .inf => true
  | _ => false

/-- A possibly-absent JSON number used in arithmetic: `undefined` converts
to `NaN` (and is falsy, like `NaN`). -/
def jsOfOpt : Option ℚ → JSNum
  | none => .nan
  | some q => .num q

/-- Is the value a finite number (neither `NaN` nor an infinity)? -/
def isFiniteNum : JSNum → Bool
  | .num _ => true
  | _ => false

/-- The rational carried by a finite value (`0` on special values). -/
def jsToRat : JSNum → ℚ
  | .num q => q
  | _ => 0

/-! ### JavaScript string helpers -/

/-- JavaScript truthiness of a possibly-absent string: absent and `""` are
falsy. -/
def strTruthy : Option String → Bool
  | none => false
  | some s => s != ""

/-- JavaScript `a || b` on possibly-absent strings. -/
def strOr (a b : Option String) : Option String := if strTruthy a then a else b

/-- JavaScript `a || d` where the right operand is a (truthy) string
literal default. -/
def strOrD (a : Option String) (d : String) : String :=
  match a with
  | some s => if s != "" then s else d
  | none => d

/-- JavaScript `toUpperCase`, characterwise. -/
def upperChars (s : String) : String := ⟨s.data.map Char.toUpper⟩

/-- JavaScript `toLowerCase`, characterwise. -/
def lowerChars (s : String) : String := ⟨s.data.map Char.toLower⟩

/-! ### Data model

`Instrument` models the stored record (`shared/schema`): the decimal string
`investedAmount` by its rational value, the nullable decimal string
`currentPrice` by an optional `JSNum` (the string round-trips through
`toString`/`parseFloat`), timestamps by naturals. The `createdAt` field is
never read by the code under verification and is omitted. -/

structure Instrument where
  id : String
  name : String
  ticker : String
  isin : Option String
  type : String
  investedAmount : ℚ
  currentPrice : Option JSNum
  currency : String
  priceLastUpdated : Option ℕ
deriving DecidableEq

/-- The canonical market quote (`MarketData` in the financial service). -/
structure MarketData where
  symbol : String
  price : JSNum
  change : JSNum
  changePercent : JSNum
  currency : String
  lastUpdate : ℕ
deriving DecidableEq

/-- A search result (`InstrumentInfo` in the financial service). -/
structure InstrumentInfo where
  name : String
  ticker : String
  isin : Option String
  type : String
  currency : String
  price : JSNum
deriving DecidableEq

/-! ### Portfolio aggregator

`GET /api/portfolio/stats` in `src/server/routes.ts`:

  const invested = parseFloat(inst.investedAmount);
  const currentPrice = parseFloat(inst.currentPrice || "0");
  const shares = invested / currentPrice || 0;
  const currentValue = shares * currentPrice;
  const profitLoss = currentValue - invested;
  acc.totalInvested += invested; ...
  acc.byType[inst.type] = (acc.byType[inst.type] || 0) + currentValue;

Note `invested / currentPrice || 0` parses as `(invested / currentPrice) || 0`:
the guard replaces falsy values (`NaN` from `0/0`, `0`) by `0` but keeps
`Infinity` from `x/0` with `x > 0`, since `Infinity` is truthy. -/

/-- `parseFloat(inst.currentPrice || "0")`: a `null` (or empty) stored price
string parses as `0`; a stored numeric string parses back to its value. -/
def parsedCurrentPrice (inst : Instrument) : JSNum := inst.currentPrice.getD (.num 0)

/-- `parseFloat(inst.investedAmount)`. -/
def parsedInvested (inst : Instrument) : JSNum := .num inst.investedAmount

/-- `const shares = invested / currentPrice || 0;` -/
def sharesImplied (inst : Instrument) : JSNum :=
  jsOrZero (jsDiv (parsedInvested inst) (parsedCurrentPrice inst))

/-- `const currentValue = shares * currentPrice;` -/
def currentValueOf (inst : Instrument) : JSNum :=
  jsMul (sharesImplied inst) (parsedCurrentPrice inst)

/-- The accumulator of the stats reduce; `byType` is the JavaScript object,
an association list in key-insertion order. -/
structure PortfolioStatsAcc where
  totalInvested : JSNum
  totalCurrentValue : JSNum
  totalProfitLoss : JSNum
  byType : List (String × JSNum)
deriving DecidableEq

/-- JavaScript object read `o[k]`: the value at the first (only) matching
key, `undefined` (`none`) when absent. -/
def byTypeLookup : List (String × JSNum) → String → Option JSNum
  | [], _ => none
  | (k, v) :: rest, t => if k = t then some v else byTypeLookup rest t

/-- JavaScript object write `o[k] = v`: overwrite the existing entry in
place, or append a new key. -/
def byTypeSet : List (String × JSNum) → String → JSNum → List (String × JSNum)
  | [], t, v => [(t, v)]
  | (k, w) :: rest, t, v =>
      if k = t then (k, v) :: rest else (k, w) :: byTypeSet rest t v

/-- The read `(acc.byType[inst.type] || 0)`: an absent key is `undefined`,
which `|| 0` turns into `0`; a present value has its own `|| 0` applied
(so a `NaN` accumulated earlier is reset to `0` here). -/
def byTypePrev (byType : List (String × JSNum)) (t : String) : JSNum :=
  match byTypeLookup byType t with
  | none => .num 0
  | some v => jsOrZero v

/-- One step of the `instruments.reduce` in `GET /api/portfolio/stats`. -/
def statsStep (acc : PortfolioStatsAcc) (inst : Instrument) : PortfolioStatsAcc :=
  let invested := parsedInvested inst
  let currentValue := currentValueOf inst
  let profitLoss := jsSub currentValue invested
  { totalInvested := jsAdd acc.totalInvested invested
    totalCurrentValue := jsAdd acc.totalCurrentValue currentValue
    totalProfitLoss := jsAdd acc.totalProfitLoss profitLoss
    byType := byTypeSet acc.byType inst.type
      (jsAdd (byTypePrev acc.byType inst.type) currentValue) }

/-- The full reduce with its zero-filled initial accumulator. -/
def portfolioStats (instruments : List Instrument) : PortfolioStatsAcc :=
  instruments.foldl statsStep ⟨.num 0, .num 0, .num 0, []⟩

/-- `totalProfitLossPercent` computed after the reduce. -/
def totalProfitLossPercent (s : PortfolioStatsAcc) : JSNum :=
  if jsGtZero s.totalInvested then jsMul (jsDiv s.totalProfitLoss s.totalInvested) (.num 100)
  else .num 0

/-- Sum of a list of JavaScript numbers (to state the `byType` balance). -/
def sumJS (l : List JSNum) : JSNum := l.foldl jsAdd (.num 0)

/-! ### Client card computation (`useInstrumentCards` in use-portfolio.ts) -/

/-- The derived fields of one instrument card. -/
structure InstrumentCardData where
  id : String
  ticker : String
  investedAmount : JSNum
  currentPrice : JSNum
  currentValue : JSNum
  profitLoss : JSNum
  profitLossPercent : JSNum
deriving DecidableEq

/-- The per-instrument map of `useInstrumentCards`: same shares formula as
the server reduce, plus
`profitLossPercent = invested > 0 ? (profitLoss / invested) * 100 : 0`. -/
def instrumentCard (inst : Instrument) : InstrumentCardData :=
  let invested := parsedInvested inst
  let currentPrice := parsedCurrentPrice inst
  let currentValue := currentValueOf inst
  let profitLoss := jsSub currentValue invested
  { id := inst.id
    ticker := inst.ticker
    investedAmount := invested
    currentPrice := currentPrice
    currentValue := currentValue
    profitLoss := profitLoss
    profitLossPercent :=
      if jsGtZero invested then jsMul (jsDiv profitLoss invested) (.num 100) else .num 0 }

/-! ### Bulk price refresher

`FinancialService.updatePrices` (identical in both revisions of the
financial service): each instrument is mapped to a promise that calls
`getCurrentPrice(instrument.ticker)` and, in its own `try/catch`, either
produces the instrument with refreshed price fields or returns the
instrument unchanged; `Promise.allSettled` collects every settlement and
rejected slots fall back to `instruments[index]`. Since every per-element
promise catches its own error, the whole operation is the per-element map
below, with `lookup` giving the per-ticker outcome of `getCurrentPrice`
(`none` = the lookup threw). -/

/-- The success branch of the per-instrument update:
`{ ...instrument, currentPrice: marketData.price.toString(),
priceLastUpdated: marketData.lastUpdate }`. -/
def applyQuote (inst : Instrument) (md : MarketData) : Instrument :=
  { inst with currentPrice := some md.price, priceLastUpdated := some md.lastUpdate }

/-- `FinancialService.updatePrices`. -/
def updatePrices (lookup : String → Option MarketData) (instruments : List Instrument) :
    List Instrument :=
  instruments.map fun inst =>
    match lookup inst.ticker with
    | some md => applyQuote inst md
    | none => inst

/-- The `count` field of the `POST /api/instruments/update-prices`
response in routes.ts: `count: updatedInstruments.length`. -/
def updatePricesResponseCount (lookup : String → Option MarketData)
    (instruments : List Instrument) : ℕ :=
  (updatePrices lookup instruments).length

/-- Following the spec's words: the number of instruments whose price
lookup succeeded, i.e. "a count of how many were successfully updated".
Stated from the spec for comparison with `updatePricesResponseCount`. -/
def specSuccessCount (lookup : String → Option MarketData)
    (instruments : List Instrument) : ℕ :=
  (instruments.filter fun inst => (lookup inst.ticker).isSome).length

/-! ### Provider clients (search)

`searchYahoo` / `searchAlphaVantage` from the financial service (identical
in both revisions). Each wraps its whole body in `try/catch` and returns
`[]` on any error, so a failed or malformed response (`none`) yields the
empty list. -/

/-- One entry of the Yahoo search response's `quotes` array; every field is
duck-typed and possibly absent. -/
structure YahooSearchQuote where
  symbol : Option String
  shortname : Option String
  longname : Option String
  isin : Option String
  quoteType : Option String
  typeDisp : Option String
  currency : Option String
  regularMarketPrice : Option ℚ
deriving DecidableEq

/-- The Yahoo search payload (`data.quotes || []` makes a missing array
the empty list, so the array itself is total). -/
structure YahooSearchPayload where
  quotes : List YahooSearchQuote
deriving DecidableEq

/-- `FinancialService.mapYahooType`: the object-literal lookup keyed by
`quoteType?.toUpperCase()`, defaulting to `"azione"`. The canonical type
strings are the code's Italian tags: `"azione"` is the spec's `equity`,
`"obbligazione"` is `bond`. -/
def mapYahooType (quoteType : Option String) : String :=
  match quoteType with
  | none => "azione"
  | some s =>
    match upperChars s with
    | "EQUITY" => "azione"
    | "ETF" => "ETF"
    | "MUTUALFUND" => "ETF"
    | "CRYPTOCURRENCY" => "crypto"
    | "BOND" => "obbligazione"
    | "INDEX" => "ETF"
    | _ => "azione"

/-- The filter `quote.symbol && quote.shortname` (truthy strings). -/
def yahooQuoteValid (q : YahooSearchQuote) : Bool :=
  strTruthy q.symbol && strTruthy q.shortname

/-- The map body of `searchYahoo` (only ever applied to filtered quotes,
whose `symbol` and `shortname` are present and non-empty; `getD ""`
covers the unreachable falsy fallthrough of the `||` chains). -/
def yahooQuoteToInfo (q : YahooSearchQuote) : InstrumentInfo :=
  { name := (strOr (strOr q.shortname q.longname) q.symbol).getD ""
    ticker := q.symbol.getD ""
    isin := if strTruthy q.isin then q.isin else none
    type := mapYahooType (strOr q.quoteType q.typeDisp)
    currency := strOrD q.currency "USD"
    price := jsOrZero (jsOfOpt q.regularMarketPrice) }

/-- `FinancialService.searchYahoo`:
`quotes.filter(...).slice(0, 5).map(...)`, with `[]` on any error. -/
def searchYahoo (resp : Option YahooSearchPayload) : List InstrumentInfo :=
  match resp with
  | none => []
  | some payload => ((payload.quotes.filter yahooQuoteValid).take 5).map yahooQuoteToInfo

/-- One entry of the Alpha Vantage `bestMatches` array (field names carry
the numeric prefixes of the upstream schema). -/
structure AlphaVantageMatch where
  symbol1 : String
  name2 : String
  currency8 : Option String
deriving DecidableEq

/-- The Alpha Vantage search payload (`data.bestMatches || []`). -/
structure AlphaVantageSearchPayload where
  bestMatches : List AlphaVantageMatch
deriving DecidableEq

/-- The map body of `searchAlphaVantage`. -/
def alphaMatchToInfo (m : AlphaVantageMatch) : InstrumentInfo :=
  { name := m.name2
    ticker := m.symbol1
    isin := none
    type := "azione"
    currency := strOrD m.currency8 "USD"
    price := .num 0 }

/-- `FinancialService.searchAlphaVantage`:
`matches.slice(0, 5).map(...)`, with `[]` on any error. -/
def searchAlphaVantage (resp : Option AlphaVantageSearchPayload) : List InstrumentInfo :=
  match resp with
  | none => []
  | some payload => (payload.bestMatches.take 5).map alphaMatchToInfo

/-! ### Failover resolver -/

/-- The provider-error taxonomy of the spec. The source signals every such
failure on the same path (caught exception / null), so the resolver's
behaviour does not depend on the kind. -/
inductive ProviderError where
  | network
  | notFound
  | rateLimited
  | malformed
deriving DecidableEq

/-- `FinancialService.searchInstrument`: try Yahoo first; on a non-empty
result return it, otherwise fall back to Alpha Vantage. Both callees catch
their own errors and return `[]`, so the body never throws and the
function's `catch` (which would rethrow) is dead code: the result is
always a normally returned list. -/
def searchInstrument (yahooResp : Option YahooSearchPayload)
    (alphaResp : Option AlphaVantageSearchPayload) : List InstrumentInfo :=
  let yahooResults := searchYahoo yahooResp
  if yahooResults.length > 0 then yahooResults else searchAlphaVantage alphaResp

/-- A provider's raw search attempt, before its own `catch`: an error or a
result list. -/
def searchEffective (o : Except ProviderError (List InstrumentInfo)) : List InstrumentInfo :=
  match o with
  | .error _ => []
  | .ok l => l

/-- The resolver's sequential try-in-order pattern over an ordered provider
list, for search: each provider's errors collapse to `[]` (its own catch),
a non-empty list wins immediately, exhaustion yields `[]` — exactly the
shape of `searchInstrument` for the two configured providers. -/
def resolveSearch : List (Except ProviderError (List InstrumentInfo)) → List InstrumentInfo
  | [] => []
  | o :: rest =>
    let l := searchEffective o
    if l.length > 0 then l else resolveSearch rest

/-- `searchYahoo`'s raw attempt: a failed fetch is a provider error, a
parsed payload is the processed list. -/
def yahooSearchAttempt (resp : Option YahooSearchPayload) :
    Except ProviderError (List InstrumentInfo) :=
  match resp with
  | none => .error .network
  | some payload => .ok (((payload.quotes.filter yahooQuoteValid).take 5).map yahooQuoteToInfo)

/-- `searchAlphaVantage`'s raw attempt. -/
def alphaSearchAttempt (resp : Option AlphaVantageSearchPayload) :
    Except ProviderError (List InstrumentInfo) :=
  match resp with
  | none => .error .network
  | some payload => .ok ((payload.bestMatches.take 5).map alphaMatchToInfo)

/-- The message of the error thrown when `getCurrentPrice` exhausts both
providers (`Failed to get current price for ...`; the ticker interpolation
is immaterial and omitted). It does not carry the provider's own error. -/
def quoteFailureMessage : String := "Failed to get current price"

/-- The resolver pattern for quote lookups: the first provider success wins,
errors fall through, exhaustion throws the generic failure. -/
def resolveQuote : List (Except ProviderError MarketData) → Except String MarketData
  | [] => .error quoteFailureMessage
  | o :: rest =>
    match o with
    | .ok d => .ok d
    | .error _ => resolveQuote rest

/-- `FinancialService.getCurrentPrice` over the outcomes of its two
providers: `getYahooPrice` returns `null` on failure (its own catch), and
an Alpha Vantage throw is caught and rethrown as the generic failure. -/
def getCurrentPrice (yahooResult : Option MarketData)
    (alphaResult : Except ProviderError MarketData) : Except String MarketData :=
  match yahooResult with
  | some d => .ok d
  | none =>
    match alphaResult with
    | .ok d => .ok d
    | .error _ => .error quoteFailureMessage

/-- `getYahooPrice`'s outcome as a raw attempt. -/
def yahooQuoteAttempt (yahooResult : Option MarketData) : Except ProviderError MarketData :=
  match yahooResult with
  | none => .error .network
  | some d => .ok d

/-! ### Quote normalizer

The Yahoo chart-API normalization, in its two revisions. The current one
(`src/unnamed/part_002`, `getYahooPrice`, first branch) uses nullish
coalescing and guards the division:

  const currentPrice = meta.regularMarketPrice ?? meta.previousClose;
  const previousClose = meta.previousClose ?? currentPrice;
  if (currentPrice != null && previousClose != null) {
    const change = currentPrice - previousClose;
    const changePercent = previousClose !== 0 ? (change / previousClose) * 100 : 0;
    ... }

The legacy one (`src/unnamed/part_003`, `getYahooPrice`) uses truthiness
and divides unconditionally:

  const currentPrice = meta.regularMarketPrice || meta.previousClose;
  const previousClose = meta.previousClose;
  const change = currentPrice - previousClose;
  const changePercent = (change / previousClose) * 100;
-/

/-- The relevant fields of `data.chart.result[0].meta`. -/
structure YahooChartMeta where
  regularMarketPrice : Option ℚ
  previousClose : Option ℚ
  currency : Option String
deriving DecidableEq

/-- The current (part_002) chart normalization; `none` when either price is
absent (the function then falls through to the quote-API branch). -/
def normalizeYahooChart (symbol : String) (meta : YahooChartMeta) (now : ℕ) :
    Option MarketData :=
  match meta.regularMarketPrice.or meta.previousClose,
        meta.previousClose.or (meta.regularMarketPrice.or meta.previousClose) with
  | some cur, some prev =>
    some { symbol := symbol
           price := .num cur
           change := .num (cur - prev)
           changePercent := .num (if prev ≠ 0 then (cur - prev) / prev * 100 else 0)
           currency := strOrD meta.currency "USD"
           lastUpdate := now }
  | _, _ => none

/-- The legacy (part_003) chart normalization: truthiness fallback for the
price, unguarded change-percent division. -/
def normalizeYahooChartLegacy (ticker : String) (meta : YahooChartMeta) (now : ℕ) :
    MarketData :=
  let currentPrice := jsOr (jsOfOpt meta.regularMarketPrice) (jsOfOpt meta.previousClose)
  let previousClose := jsOfOpt meta.previousClose
  let change := jsSub currentPrice previousClose
  { symbol := ticker
    price := currentPrice
    change := change
    changePercent := jsMul (jsDiv change previousClose) (.num 100)
    currency := strOrD meta.currency "USD"
    lastUpdate := now }

/-! ### Portfolio store and the create-instrument route

`MemStorage.getInstrumentByTicker` (storage.ts) and
`POST /api/instruments` (routes.ts). The store's `Map` values are modelled
as the list of instruments in insertion order. -/

/-- `Array.from(this.instruments.values()).find(i => i.ticker.toLowerCase()
=== ticker.toLowerCase())`. -/
def getInstrumentByTicker (store : List Instrument) (ticker : String) : Option Instrument :=
  store.find? fun inst => lowerChars inst.ticker == lowerChars ticker

/-- The parsed request body of `POST /api/instruments`
(`insertInstrumentSchema`). -/
structure InsertInstrument where
  name : String
  ticker : String
  isin : Option String
  type : String
  investedAmount : ℚ
  currentPrice : Option JSNum
  currency : Option String
  priceLastUpdated : Option ℕ
deriving DecidableEq

/-- `MemStorage.createInstrument`: appends the new record with the `|| null`
and `|| "EUR"` defaults. -/
def createInstrument (store : List Instrument) (data : InsertInstrument) (newId : String) :
    List Instrument :=
  store ++ [{ id := newId
              name := data.name
              ticker := data.ticker
              isin := if strTruthy data.isin then data.isin else none
              type := data.type
              investedAmount := data.investedAmount
              currentPrice := data.currentPrice
              currency := strOrD data.currency "EUR"
              priceLastUpdated := data.priceLastUpdated }]

/-- `POST /api/instruments`: duplicate ticker check first (409, store
untouched), otherwise enrich with the price lookup's outcome when it
succeeded (a failed lookup only logs and continues) and create. Returns
the HTTP status and the resulting store. -/
def postInstrument (store : List Instrument) (data : InsertInstrument)
    (priceResult : Option MarketData) (newId : String) : ℕ × List Instrument :=
  match getInstrumentByTicker store data.ticker with
  | some _ => (409, store)
  | none =>
    let enriched :=
      match priceResult with
      | some md => { data with currentPrice := some md.price,
                               priceLastUpdated := some md.lastUpdate }
      | none => data
    (201, createInstrument store enriched newId)

/-! ### Concrete example data -/

/-- An instrument whose stored price is `0` with a positive invested
amount. -/
def zeroPriceInstrument : Instrument :=
  { id := "inst-1", name := "Degenerate Bond", ticker := "ZRO", isin := none,
    type := "azione", investedAmount := 500, currentPrice := some (.num 0),
    currency := "EUR", priceLastUpdated := none }

/-- A healthy instrument: invested 1000 at a current price of 100. -/
def okInstrument : Instrument :=
  { id := "inst-2", name := "Sound Stock", ticker := "OKK", isin := none,
    type := "azione", investedAmount := 1000, currentPrice := some (.num 100),
    currency := "EUR", priceLastUpdated := none }

/-- A second healthy instrument of another type. -/
def etfInstrument : Instrument :=
  { id := "inst-3", name := "Broad ETF", ticker := "ETV", isin := none,
    type := "ETF", investedAmount := 200, currentPrice := some (.num 50),
    currency := "EUR", priceLastUpdated := none }

/-- A fresh market quote used in refresh examples. -/
def sampleQuote : MarketData :=
  { symbol := "AAA", price := .num 123, change := .num 1, changePercent := .num 2,
    currency := "USD", lastUpdate := 7 }

/-- A search result used in failover examples. -/
def sampleInfo : InstrumentInfo :=
  { name := "Apple Inc.", ticker := "AAPL", isin := none, type := "azione",
    currency := "USD", price := .num 150 }

/-- Three held instruments for the bulk-refresh isolation example. -/
def bulkInstruments : List Instrument :=
  [{ zeroPriceInstrument with id := "b-1", ticker := "AAA" },
   { okInstrument with id := "b-2", ticker := "BBB" },
   { etfInstrument with id := "b-3", ticker := "CCC" }]

/-- A per-ticker outcome where the second instrument's lookup fails and the
others succeed. -/
def failSecondLookup : String → Option MarketData :=
  fun t => if t == "BBB" then none else some sampleQuote

/-- A per-ticker outcome where every lookup fails. -/
def noQuoteLookup : String → Option MarketData := fun _ => none

/-- A chart meta with a live price of 150 and a previous close of 0. -/
def zeroPrevCloseMeta : YahooChartMeta :=
  { regularMarketPrice := some 150, previousClose := some 0, currency := none }

/-- A well-formed Yahoo search quote. -/
def sampleYahooQuote : YahooSearchQuote :=
  { symbol := some "AAPL", shortname := some "Apple Inc.", longname := none,
    isin := none, quoteType := some "EQUITY", typeDisp := none,
    currency := some "USD", regularMarketPrice := some 150 }

/-- A Yahoo search payload with six valid quotes (more than the cap). -/
def sixQuotesPayload : YahooSearchPayload := ⟨List.replicate 6 sampleYahooQuote⟩

/-- The empty Yahoo search payload. -/
def emptyYahooPayload : YahooSearchPayload := ⟨[]⟩

/-- An Alpha Vantage match. -/
def sampleAlphaMatch : AlphaVantageMatch :=
  { symbol1 := "MSFT", name2 := "Microsoft Corporation", currency8 := some "USD" }

/-- An Alpha Vantage payload with six matches (more than the cap). -/
def sixMatchesPayload : AlphaVantageSearchPayload := ⟨List.replicate 6 sampleAlphaMatch⟩

/-- The empty Alpha Vantage payload. -/
def emptyAlphaPayload : AlphaVantageSearchPayload := ⟨[]⟩

/-- A stored instrument with the upper-case ticker `AAPL`. -/
def aaplInstrument : Instrument :=
  { id := "inst-4", name := "Apple Inc.", ticker := "AAPL", isin := none,
    type := "azione", investedAmount := 100, currentPrice := some (.num 150),
    currency := "USD", priceLastUpdated := none }

/-- A creation request whose ticker differs from `AAPL` only in case. -/
def aaplInsert : InsertInstrument :=
  { name := "Apple again", ticker := "AApl", isin := none, type := "azione",
    investedAmount := 250, currentPrice := none, currency := none,
    priceLastUpdated := none }

/-- An instrument satisfying the finite-value side condition of the
amended byType balance: price present and non-zero, or nothing invested. -/
def finitePriceInstrument (inst : Instrument) : Prop :=
  ∃ q : ℚ, parsedCurrentPrice inst = .num q ∧ (q ≠ 0 ∨ inst.investedAmount = 0)

/-- The values of the `byType` object, in key order. -/
def byTypeVals (l : List (String × JSNum)) : List JSNum := l.map Prod.snd

/-- The exact rational sum of a list of (finite) JavaScript numbers. -/
def ratSum (l : List JSNum) : ℚ := (l.map jsToRat).sum

/-! ### Helper lemmas -/

theorem jsOrZero_num (q : ℚ) : jsOrZero (.num q) = .num q := by
  by_cases h : q = 0 <;> simp [jsOrZero, jsTruthy, h]

theorem ifLengthPos {α : Type} (l : List α) : (if l.length > 0 then l else ([] : List α)) = l := by
  cases l <;> simp

/-! ### C1 — zero current price in the aggregator -/

/-- C1: the claim says that an instrument with `currentPrice = 0` and
`investedAmount > 0` gets `sharesImplied = 0`, hence `currentValue = 0` and
`profitLossPercent = 0`, never NaN or infinity. The code's guard
`invested / currentPrice || 0` does not fire on `Infinity` (which is
truthy), so at `investedAmount = 500, currentPrice = 0` the aggregator and
the client card computation actually produce `shares = Infinity`,
`currentValue = NaN` and `profitLossPercent = NaN`. -/
theorem zeroPriceYieldsNaN :
    sharesImplied zeroPriceInstrument = JSNum.inf ∧
    currentValueOf zeroPriceInstrument = JSNum.nan ∧
    (instrumentCard zeroPriceInstrument).currentValue = JSNum.nan ∧
    (instrumentCard zeroPriceInstrument).profitLossPercent = JSNum.nan ∧
    (portfolioStats [zeroPriceInstrument]).totalCurrentValue = JSNum.nan := by
  refine ⟨?_, ?_, ?_, ?_, ?_⟩ <;>
    norm_num [zeroPriceInstrument, sharesImplied, currentValueOf, instrumentCard,
      portfolioStats, statsStep, parsedInvested, parsedCurrentPrice, jsDiv, jsMul,
      jsAdd, jsSub, jsNeg, jsOrZero, jsTruthy, jsGtZero]

/-! ### C6 — change percent at previous close zero -/

/-- C6: with `previousClose = 0` (and a live price of 150), the current
normalizer (part_002) outputs `changePercent = 0` as the claim states, but
the legacy normalizer (part_003, also cited by the claim) divides by the
zero previous close and outputs `changePercent = Infinity`. -/
theorem zeroPrevCloseNormalization :
    (normalizeYahooChart "AAPL" zeroPrevCloseMeta 0).map MarketData.changePercent =
      some (JSNum.num 0) ∧
    (normalizeYahooChartLegacy "AAPL" zeroPrevCloseMeta 0).changePercent = JSNum.inf := by
  constructor
  · norm_num [normalizeYahooChart, zeroPrevCloseMeta, Option.or]
  · norm_num [normalizeYahooChartLegacy, zeroPrevCloseMeta, jsOfOpt, jsOr, jsTruthy,
      jsSub, jsNeg, jsAdd, jsDiv, jsMul]

/-! ### C2 — bulk refresh isolation -/

/-- C2: the bulk refresh returns a list of the same length in which the
instrument at every position is unchanged when its lookup failed and has
exactly its price fields refreshed when its lookup succeeded; each
position's outcome is a function of that instrument and its own lookup
alone. -/
theorem updatePricesPointwise (lookup : String → Option MarketData) (l : List Instrument) :
    (updatePrices lookup l).length = l.length ∧
    ∀ (i : ℕ) (inst : Instrument), l[i]? = some inst →
      (lookup inst.ticker = none → (updatePrices lookup l)[i]? = some inst) ∧
      ∀ md : MarketData, lookup inst.ticker = some md →
        (updatePrices lookup l)[i]? = some (applyQuote inst md) := by
  refine ⟨by simp [updatePrices], ?_⟩
  intro i inst hi
  constructor
  · intro hnone
    rw [updatePrices, List.getElem?_map, hi]
    simp [hnone]
  · intro md hmd
    rw [updatePrices, List.getElem?_map, hi]
    simp [hmd]

/-- Witness for C2: three instruments, the second lookup fails, the others
succeed; slot 1 is byte-identical to its input, slots 0 and 2 carry the
refreshed price fields, and the length is 3. -/
theorem updatePricesPointwise_witness :
    (updatePrices failSecondLookup bulkInstruments).length = 3 ∧
    (updatePrices failSecondLookup bulkInstruments)[1]? =
      some { okInstrument with id := "b-2", ticker := "BBB" } ∧
    (updatePrices failSecondLookup bulkInstruments)[0]? =
      some (applyQuote { zeroPriceInstrument with id := "b-1", ticker := "AAA" } sampleQuote) ∧
    (updatePrices failSecondLookup bulkInstruments)[2]? =
      some (applyQuote { etfInstrument with id := "b-3", ticker := "CCC" } sampleQuote) := by
  have h := updatePricesPointwise failSecondLookup bulkInstruments
  refine ⟨h.1, ?_, ?_, ?_⟩
  · exact (h.2 1 _ rfl).1 rfl
  · exact (h.2 0 _ rfl).2 sampleQuote rfl
  · exact (h.2 2 _ rfl).2 sampleQuote rfl

/-! ### C3 — the update-prices response count -/

/-- C3 as stated is false: the endpoint reports
`count: updatedInstruments.length`, so for one instrument whose lookup
fails the reported count is 1 while the number of successful updates is 0. -/
theorem updateCountNotSuccessCount :
    updatePricesResponseCount noQuoteLookup [okInstrument] = 1 ∧
    specSuccessCount noQuoteLookup [okInstrument] = 0 ∧ (1 : ℕ) ≠ 0 :=
  ⟨rfl, rfl, by decide⟩

/-- C3 (amended): the `count` field of the update-prices response equals
the total number of instruments (the length of the returned list),
regardless of how many lookups succeed. -/
theorem updateCountIsLength (lookup : String → Option MarketData) (l : List Instrument) :
    updatePricesResponseCount lookup l = l.length := by
  simp [updatePricesResponseCount, updatePrices]

/-- Witness for C3 (amended): three instruments with one failing lookup
still report a count of 3. -/
theorem updateCountIsLength_witness :
    updatePricesResponseCount failSecondLookup bulkInstruments = 3 :=
  (updateCountIsLength failSecondLookup bulkInstruments).trans rfl

/-! ### C4 — failover order -/

theorem resolveSearch_single_alpha (ar : Option AlphaVantageSearchPayload) :
    resolveSearch [alphaSearchAttempt ar] = searchAlphaVantage ar := by
  cases ar <;> simp [resolveSearch, alphaSearchAttempt, searchEffective,
    searchAlphaVantage, ifLengthPos]

theorem searchYahoo_eq_effective (yr : Option YahooSearchPayload) :
    searchYahoo yr = searchEffective (yahooSearchAttempt yr) := by
  cases yr <;> rfl

/-- C4: over any ordered provider list, if every earlier provider errors or
comes back empty and a later one has a valid non-empty result, the
resolver returns exactly that result — whatever the providers after it
would return (they are never consulted); and the two-provider
`searchInstrument` / `getCurrentPrice` chains of the source are instances
of this resolution pattern. -/
theorem failoverFirstSuccess :
    (∀ (pre suf : List (Except ProviderError (List InstrumentInfo)))
       (o : Except ProviderError (List InstrumentInfo)),
       (∀ x ∈ pre, searchEffective x = []) → searchEffective o ≠ [] →
       resolveSearch (pre ++ o :: suf) = searchEffective o) ∧
    (∀ (pre suf : List (Except ProviderError MarketData)) (d : MarketData),
       (∀ x ∈ pre, ∃ e, x = .error e) →
       resolveQuote (pre ++ .ok d :: suf) = .ok d) ∧
    (∀ (yr : Option YahooSearchPayload) (ar : Option AlphaVantageSearchPayload),
       searchInstrument yr ar = resolveSearch [yahooSearchAttempt yr, alphaSearchAttempt ar]) ∧
    (∀ (y : Option MarketData) (a : Except ProviderError MarketData),
       getCurrentPrice y a = resolveQuote [yahooQuoteAttempt y, a]) := by
  refine ⟨?_, ?_, ?_, ?_⟩
  · intro pre
    induction pre with
    | nil =>
      intro suf o _ ho
      have : (searchEffective o).length > 0 := List.length_pos.mpr ho
      simp [resolveSearch, this]
    | cons x pre ih =>
      intro suf o hpre ho
      have hx : searchEffective x = [] := hpre x (by simp)
      have : resolveSearch ((x :: pre) ++ o :: suf) = resolveSearch (pre ++ o :: suf) := by
        simp [resolveSearch, hx]
      rw [this]
      exact ih suf o (fun y hy => hpre y (by simp [hy])) ho
  · intro pre
    induction pre with
    | nil => intro suf d _; simp [resolveQuote]
    | cons x pre ih =>
      intro suf d hpre
      obtain ⟨e, he⟩ := hpre x (by simp)
      subst he
      simpa [resolveQuote] using ih suf d (fun y hy => hpre y (by simp [hy]))
  · intro yr ar
    rw [searchInstrument, searchYahoo_eq_effective]
    show (if (searchEffective (yahooSearchAttempt yr)).length > 0
            then searchEffective (yahooSearchAttempt yr)
            else searchAlphaVantage ar) = _
    rw [resolveSearch, ← resolveSearch_single_alpha]
  · intro y a
    cases y with
    | some d => rfl
    | none => cases a <;> rfl

/-- Witness for C4: provider A fails, provider B has a valid result,
provider C is configured — the resolver's result is B's, for search and for
quote. -/
theorem failoverFirstSuccess_witness :
    resolveSearch [.error .network, .ok [sampleInfo], .error .rateLimited] = [sampleInfo] ∧
    resolveQuote [.error .network, .ok sampleQuote, .error .rateLimited] =
      .ok sampleQuote := by
  constructor
  · exact failoverFirstSuccess.1 [.error .network] [.error .rateLimited] (.ok [sampleInfo])
      (by intro x hx; simp at hx; subst hx; rfl) (by simp [searchEffective])
  · exact failoverFirstSuccess.2.1 [.error .network] [.error .rateLimited] sampleQuote
      (by intro x hx; simp at hx; subst hx; exact ⟨.network, rfl⟩)

/-! ### C5 — exhaustion of all providers -/

/-- C5 as stated is false for the search operation: when every provider
errors or returns an empty result, `searchInstrument` returns the empty
list as a normal success value (both provider clients catch their own
errors and return `[]`), not an `AllProvidersFailed`-style failure. -/
theorem searchAllFailedIsEmptySuccess :
    searchInstrument none none = ([] : List InstrumentInfo) ∧
    resolveSearch [.error .network, .error .notFound] = ([] : List InstrumentInfo) :=
  ⟨rfl, rfl⟩

/-- C5 (amended): when every provider fails, the quote resolver returns a
typed failure — with a fixed message that does not carry the last
provider's error — while the search resolver returns the empty list as a
successful value. -/
theorem allProvidersFailedOutcome :
    (∀ outs : List (Except ProviderError MarketData),
       (∀ o ∈ outs, ∃ e, o = .error e) →
       resolveQuote outs = .error quoteFailureMessage) ∧
    (∀ outs : List (Except ProviderError (List InstrumentInfo)),
       (∀ o ∈ outs, searchEffective o = []) → resolveSearch outs = []) ∧
    (∀ e : ProviderError, getCurrentPrice none (.error e) = .error quoteFailureMessage) ∧
    searchInstrument none none = ([] : List InstrumentInfo) := by
  refine ⟨?_, ?_, fun e => rfl, rfl⟩
  · intro outs
    induction outs with
    | nil => intro _; rfl
    | cons x rest ih =>
      intro h
      obtain ⟨e, he⟩ := h x (by simp)
      subst he
      simpa [resolveQuote] using ih (fun y hy => h y (by simp [hy]))
  · intro outs
    induction outs with
    | nil => intro _; rfl
    | cons x rest ih =>
      intro h
      have hx : searchEffective x = [] := h x (by simp)
      simpa [resolveSearch, hx] using ih (fun y hy => h y (by simp [hy]))

/-- Witness for C5 (amended): two failing quote providers yield the fixed
failure; two empty-or-failing search providers yield the empty list. -/
theorem allProvidersFailedOutcome_witness :
    resolveQuote [.error .network, .error .rateLimited] =
      .error quoteFailureMessage ∧
    resolveSearch [.error .network, .ok []] = ([] : List InstrumentInfo) := by
  constructor
  · exact allProvidersFailedOutcome.1 [.error .network, .error .rateLimited]
      (by intro o ho; simp at ho; rcases ho with rfl | rfl
          · exact ⟨.network, rfl⟩
          · exact ⟨.rateLimited, rfl⟩)
  · exact allProvidersFailedOutcome.2.1 [.error .network, .ok []]
      (by intro o ho; simp at ho; rcases ho with rfl | rfl <;> rfl)

/-! ### C8 — provider search truncation, order and empty results -/

/-- C8: each provider client returns at most 5 results; the output is the
conversion of the first (at most five) valid upstream entries, so the
output tickers form a sublist of the upstream symbols in provider order
(no re-ranking); an empty upstream result set — or a failed request — is a
valid empty list, not an error. -/
theorem providerSearchContract :
    (∀ p : YahooSearchPayload,
       (searchYahoo (some p)).length ≤ 5 ∧
       searchYahoo (some p) = ((p.quotes.filter yahooQuoteValid).take 5).map yahooQuoteToInfo ∧
       ((searchYahoo (some p)).map InstrumentInfo.ticker).Sublist
         (p.quotes.map fun q => q.symbol.getD "") ∧
       (p.quotes = [] → searchYahoo (some p) = [])) ∧
    searchYahoo none = [] ∧
    (∀ p : AlphaVantageSearchPayload,
       (searchAlphaVantage (some p)).length ≤ 5 ∧
       searchAlphaVantage (some p) = (p.bestMatches.take 5).map alphaMatchToInfo ∧
       ((searchAlphaVantage (some p)).map InstrumentInfo.ticker).Sublist
         (p.bestMatches.map AlphaVantageMatch.symbol1) ∧
       (p.bestMatches = [] → searchAlphaVantage (some p) = [])) ∧
    searchAlphaVantage none = [] := by
  refine ⟨?_, rfl, ?_, rfl⟩
  · intro p
    refine ⟨?_, rfl, ?_, ?_⟩
    · simp only [searchYahoo, List.length_map]
      exact List.length_take_le 5 (p.quotes.filter yahooQuoteValid)
    · have hsub : ((p.quotes.filter yahooQuoteValid).take 5).Sublist p.quotes :=
        (List.take_sublist _ _).trans (List.filter_sublist _)
      simpa [searchYahoo, List.map_map] using hsub.map fun q => q.symbol.getD ""
    · intro hq; simp [searchYahoo, hq]
  · intro p
    refine ⟨?_, rfl, ?_, ?_⟩
    · simp only [searchAlphaVantage, List.length_map]
      exact List.length_take_le 5 p.bestMatches
    · have hsub : (p.bestMatches.take 5).Sublist p.bestMatches := List.take_sublist _ _
      simpa [searchAlphaVantage, List.map_map] using hsub.map AlphaVantageMatch.symbol1
    · intro hq; simp [searchAlphaVantage, hq]

/-- Witness for C8: six valid upstream entries are cut to five for both
providers, and the empty payloads yield empty lists. -/
theorem providerSearchContract_witness :
    (searchYahoo (some sixQuotesPayload)).length ≤ 5 ∧
    searchYahoo (some emptyYahooPayload) = [] ∧
    (searchAlphaVantage (some sixMatchesPayload)).length ≤ 5 ∧
    searchAlphaVantage (some emptyAlphaPayload) = [] :=
  ⟨(providerSearchContract.1 sixQuotesPayload).1,
   (providerSearchContract.1 emptyYahooPayload).2.2.2 rfl,
   (providerSearchContract.2.2.1 sixMatchesPayload).1,
   (providerSearchContract.2.2.1 emptyAlphaPayload).2.2.2 rfl⟩

/-! ### C9 — instrument-type normalization -/

/-- C9: every provider type string maps into the canonical four-element
type set — in the code's tags `azione` (equity), `ETF`, `obbligazione`
(bond), `crypto` — with `EQUITY` mapped to equity, `CRYPTOCURRENCY` to
crypto, `BOND` to bond, and every unknown or absent type defaulting to
equity. -/
theorem mapYahooTypeCanonical :
    (∀ s : Option String, mapYahooType s = "azione" ∨ mapYahooType s = "ETF" ∨
       mapYahooType s = "obbligazione" ∨ mapYahooType s = "crypto") ∧
    mapYahooType (some "EQUITY") = "azione" ∧
    mapYahooType (some "CRYPTOCURRENCY") = "crypto" ∧
    mapYahooType (some "BOND") = "obbligazione" ∧
    mapYahooType (some "ETF") = "ETF" ∧
    mapYahooType (some "MUTUALFUND") = "ETF" ∧
    mapYahooType (some "INDEX") = "ETF" ∧
    (∀ s : String,
       upperChars s ∉
         (["EQUITY", "ETF", "MUTUALFUND", "CRYPTOCURRENCY", "BOND", "INDEX"] : List String) →
       mapYahooType (some s) = "azione") ∧
    mapYahooType none = "azione" := by
  refine ⟨?_, by decide, by decide, by decide, by decide, by decide, by decide, ?_, rfl⟩
  · intro s
    cases s with
    | none => left; rfl
    | some s =>
      simp only [mapYahooType]
      split <;> simp
  · intro s hs
    simp only [mapYahooType]
    split <;> simp_all

/-- Witness for C9: an entirely unknown asset class falls back to the
default equity tag. -/
theorem mapYahooTypeCanonical_witness : mapYahooType (some "WARRANT") = "azione" :=
  mapYahooTypeCanonical.2.2.2.2.2.2.2.1 "WARRANT" (by decide)

/-! ### C7 — the byType / total balance -/

theorem currentValueOf_finite (inst : Instrument) (h : finitePriceInstrument inst) :
    ∃ v : ℚ, currentValueOf inst = .num v := by
  obtain ⟨q, hq, hcase⟩ := h
  by_cases hq0 : q = 0
  · have hz : inst.investedAmount = 0 := by
      rcases hcase with hne | hz
      · exact absurd hq0 hne
      · exact hz
    exact ⟨0, by norm_num [currentValueOf, sharesImplied, hq, hq0, hz, parsedInvested,
      jsDiv, jsOrZero, jsTruthy, jsMul]⟩
  · exact ⟨inst.investedAmount / q * q, by
      norm_num [currentValueOf, sharesImplied, hq, parsedInvested, jsDiv, hq0,
        jsOrZero_num, jsMul]⟩

theorem byTypeVals_cons (k : String) (w : JSNum) (l : List (String × JSNum)) :
    byTypeVals ((k, w) :: l) = w :: byTypeVals l := rfl

theorem ratSum_cons (v : JSNum) (l : List JSNum) : ratSum (v :: l) = jsToRat v + ratSum l := by
  simp [ratSum]

theorem sumJS_foldl (l : List JSNum) :
    ∀ a : ℚ, (∀ v ∈ l, isFiniteNum v = true) →
      l.foldl jsAdd (.num a) = .num (a + ratSum l) := by
  induction l with
  | nil => intro a _; simp [ratSum]
  | cons v rest ih =>
    intro a h
    have hv := h v (by simp)
    cases v with
    | num q =>
      rw [List.foldl_cons,
        show jsAdd (JSNum.num a) (JSNum.num q) = .num (a + q) from rfl,
        ih (a + q) (fun w hw => h w (List.mem_cons_of_mem _ hw)),
        ratSum_cons]
      congr 1
      simp [jsToRat]
      ring
    | inf => simp [isFiniteNum] at hv
    | ninf => simp [isFiniteNum] at hv
    | nan => simp [isFiniteNum] at hv

theorem sumJS_ofFinite (l : List JSNum) (h : ∀ v ∈ l, isFiniteNum v = true) :
    sumJS l = .num (ratSum l) := by
  rw [sumJS, sumJS_foldl l 0 h]
  norm_num

theorem byTypeLookup_mem (l : List (String × JSNum)) (t : String) (w : JSNum)
    (h : byTypeLookup l t = some w) : w ∈ byTypeVals l := by
  induction l with
  | nil => simp [byTypeLookup] at h
  | cons p rest ih =>
    obtain ⟨k, v⟩ := p
    by_cases hk : k = t
    · rw [byTypeLookup, if_pos hk] at h
      obtain rfl : v = w := by injection h
      simp [byTypeVals]
    · rw [byTypeLookup, if_neg hk] at h
      have := ih h
      rw [byTypeVals_cons]
      exact List.mem_cons_of_mem _ this

theorem byTypeSet_finite (l : List (String × JSNum)) (t : String) (v : JSNum)
    (hl : ∀ w ∈ byTypeVals l, isFiniteNum w = true) (hv : isFiniteNum v = true) :
    ∀ w ∈ byTypeVals (byTypeSet l t v), isFiniteNum w = true := by
  induction l with
  | nil =>
    intro w hw
    simp [byTypeSet, byTypeVals] at hw
    rwa [hw]
  | cons p rest ih =>
    obtain ⟨k, u⟩ := p
    intro w hw
    by_cases hk : k = t
    · rw [byTypeSet, if_pos hk, byTypeVals_cons] at hw
      rcases List.mem_cons.mp hw with rfl | hw
      · exact hv
      · exact hl w (List.mem_cons_of_mem _ hw)
    · rw [byTypeSet, if_neg hk, byTypeVals_cons] at hw
      rcases List.mem_cons.mp hw with rfl | hw
      · exact hl w (by simp [byTypeVals])
      · exact ih (fun u hu => hl u (List.mem_cons_of_mem _ hu)) w hw

theorem byTypeSet_ratSum (l : List (String × JSNum)) (t : String) (v : JSNum) :
    ratSum (byTypeVals (byTypeSet l t v)) =
      ratSum (byTypeVals l) + jsToRat v - jsToRat ((byTypeLookup l t).getD (.num 0)) := by
  induction l with
  | nil => simp [byTypeSet, byTypeVals, ratSum, byTypeLookup, jsToRat]
  | cons p rest ih =>
    obtain ⟨k, w⟩ := p
    by_cases hk : k = t
    · rw [byTypeSet, if_pos hk, byTypeLookup, if_pos hk, byTypeVals_cons,
        byTypeVals_cons, ratSum_cons, ratSum_cons]
      simp only [Option.getD_some]
      ring
    · rw [byTypeSet, if_neg hk, byTypeLookup, if_neg hk, byTypeVals_cons,
        byTypeVals_cons, ratSum_cons, ratSum_cons, ih]
      ring

theorem byTypePrev_spec (byType : List (String × JSNum)) (t : String)
    (h : ∀ w ∈ byTypeVals byType, isFiniteNum w = true) :
    ∃ pq : ℚ, byTypePrev byType t = .num pq ∧
      jsToRat ((byTypeLookup byType t).getD (.num 0)) = pq := by
  cases hlk : byTypeLookup byType t with
  | none => exact ⟨0, by simp [byTypePrev, hlk], by simp [hlk, jsToRat]⟩
  | some w =>
    have hw := h w (byTypeLookup_mem _ _ _ hlk)
    cases w with
    | num q => exact ⟨q, by simp [byTypePrev, hlk, jsOrZero_num], by simp [hlk, jsToRat]⟩
    | inf => simp [isFiniteNum] at hw
    | ninf => simp [isFiniteNum] at hw
    | nan => simp [isFiniteNum] at hw

theorem statsFoldInvariant (l : List Instrument) :
    ∀ acc : PortfolioStatsAcc,
      (∀ i ∈ l, finitePriceInstrument i) →
      (∀ w ∈ byTypeVals acc.byType, isFiniteNum w = true) →
      acc.totalCurrentValue = .num (ratSum (byTypeVals acc.byType)) →
      (∀ w ∈ byTypeVals (l.foldl statsStep acc).byType, isFiniteNum w = true) ∧
      (l.foldl statsStep acc).totalCurrentValue =
        .num (ratSum (byTypeVals (l.foldl statsStep acc).byType)) := by
  induction l with
  | nil => intro acc _ h1 h2; exact ⟨h1, h2⟩
  | cons i rest ih =>
    intro acc hl h1 h2
    rw [List.foldl_cons]
    obtain ⟨cv, hcv⟩ := currentValueOf_finite i (hl i (by simp))
    obtain ⟨pq, hpq, hpq2⟩ := byTypePrev_spec acc.byType i.type h1
    have hbt : (statsStep acc i).byType = byTypeSet acc.byType i.type (.num (pq + cv)) := by
      have hshape : (statsStep acc i).byType =
          byTypeSet acc.byType i.type
            (jsAdd (byTypePrev acc.byType i.type) (currentValueOf i)) := rfl
      rw [hshape, hpq, hcv]
      rfl
    have htv : (statsStep acc i).totalCurrentValue =
        .num (ratSum (byTypeVals acc.byType) + cv) := by
      have hshape : (statsStep acc i).totalCurrentValue =
          jsAdd acc.totalCurrentValue (currentValueOf i) := rfl
      rw [hshape, h2, hcv]
      rfl
    apply ih (statsStep acc i) (fun j hj => hl j (List.mem_cons_of_mem _ hj))
    · intro w hw
      rw [hbt] at hw
      exact byTypeSet_finite acc.byType i.type _ h1 (by simp [isFiniteNum]) w hw
    · rw [htv, hbt, byTypeSet_ratSum, hpq2]
      congr 1
      simp only [jsToRat]
      ring

/-- C7 as stated is false: with a price-zero instrument (whose
`currentValue` is `NaN`) followed by a same-type healthy instrument, the
`|| 0` read of the `byType` accumulator resets the `NaN` bucket to `0`, so
the `byType` values sum to 1000 while `totalCurrentValue` stays `NaN`. -/
theorem byTypeSumDivergesFromTotal :
    sumJS (byTypeVals (portfolioStats [zeroPriceInstrument, okInstrument]).byType) =
      JSNum.num 1000 ∧
    (portfolioStats [zeroPriceInstrument, okInstrument]).totalCurrentValue = JSNum.nan ∧
    JSNum.num 1000 ≠ JSNum.nan := by
  refine ⟨?_, ?_, by decide⟩ <;>
    norm_num [portfolioStats, statsStep, byTypePrev, byTypeLookup, byTypeSet, byTypeVals,
      sumJS, zeroPriceInstrument, okInstrument, currentValueOf, sharesImplied,
      parsedInvested, parsedCurrentPrice, jsDiv, jsMul, jsAdd, jsSub, jsNeg,
      jsOrZero, jsTruthy, jsToRat]

/-- C7 (amended): for every non-empty instrument list in which each
instrument's stored price is a finite non-zero number (or nothing is
invested in it) — so that no `currentValue` degenerates to `NaN` — the
`byType` values sum exactly to `totalCurrentValue`, whatever the order of
the instruments. -/
theorem byTypeSumMatchesTotal (l : List Instrument) (_hne : l ≠ [])
    (hfin : ∀ i ∈ l, finitePriceInstrument i) :
    sumJS (byTypeVals (portfolioStats l).byType) = (portfolioStats l).totalCurrentValue := by
  obtain ⟨h1, h2⟩ := statsFoldInvariant l ⟨.num 0, .num 0, .num 0, []⟩ hfin
    (by simp [byTypeVals]) (by simp [byTypeVals, ratSum])
  have hps : portfolioStats l = l.foldl statsStep ⟨.num 0, .num 0, .num 0, []⟩ := rfl
  rw [hps, h2]
  exact sumJS_ofFinite _ h1

/-- Witness for C7 (amended): two healthy instruments of different types. -/
theorem byTypeSumMatchesTotal_witness :
    sumJS (byTypeVals (portfolioStats [okInstrument, etfInstrument]).byType) =
      (portfolioStats [okInstrument, etfInstrument]).totalCurrentValue := by
  apply byTypeSumMatchesTotal
  · simp
  · intro i hi
    rcases List.mem_cons.mp hi with rfl | hi
    · exact ⟨100, rfl, Or.inl (by norm_num)⟩
    · rcases List.mem_cons.mp hi with rfl | hi
      · exact ⟨50, rfl, Or.inl (by norm_num)⟩
      · simp at hi

/-! ### C10 — case-insensitive ticker lookup and duplicate rejection -/

/-- C10: ticker lookup is case-insensitive — in a store whose tickers are
pairwise distinct up to case (the invariant the creation route maintains),
a query equal to a stored ticker up to letter case finds exactly that
instrument; and creating an instrument whose ticker differs only in case
from a stored one answers 409 and leaves the store unchanged. -/
theorem tickerLookupCaseInsensitive :
    (∀ (store : List Instrument) (inst : Instrument) (q : String),
       store.Pairwise (fun a b => lowerChars a.ticker ≠ lowerChars b.ticker) →
       inst ∈ store → lowerChars q = lowerChars inst.ticker →
       getInstrumentByTicker store q = some inst) ∧
    (∀ (store : List Instrument) (data : InsertInstrument) (inst : Instrument)
       (priceResult : Option MarketData) (newId : String),
       inst ∈ store → lowerChars data.ticker = lowerChars inst.ticker →
       postInstrument store data priceResult newId = (409, store)) := by
  constructor
  · intro store
    induction store with
    | nil => intro inst q _ h _; simp at h
    | cons a rest ih =>
      intro inst q hpw hmem hq
      by_cases ha : lowerChars a.ticker = lowerChars q
      · have hfind : getInstrumentByTicker (a :: rest) q = some a := by
          simp [getInstrumentByTicker, List.find?, ha]
        rcases List.mem_cons.mp hmem with rfl | hmem
        · exact hfind
        · exact absurd (ha.trans hq) ((List.pairwise_cons.mp hpw).1 inst hmem)
      · have hfind : getInstrumentByTicker (a :: rest) q =
            getInstrumentByTicker rest q := by
          simp only [getInstrumentByTicker, List.find?]
          rw [show (lowerChars a.ticker == lowerChars q) = false from by
            simp [ha]]
        rcases List.mem_cons.mp hmem with rfl | hmem
        · exact absurd hq.symm ha
        · rw [hfind]
          exact ih inst q (List.pairwise_cons.mp hpw).2 hmem hq
  · intro store data inst priceResult newId hmem hq
    have hsome : (getInstrumentByTicker store data.ticker).isSome := by
      rw [getInstrumentByTicker]
      apply List.find?_isSome.mpr
      exact ⟨inst, hmem, by simp [hq.symm]⟩
    rw [postInstrument.eq_def]
    cases hfind : getInstrumentByTicker store data.ticker with
    | none => rw [hfind] at hsome; simp at hsome
    | some found => rfl

/-- Witness for C10: with `AAPL` stored, the query `aapl` finds it, and
creating `AApl` is rejected with 409, leaving the store as it was. -/
theorem tickerLookupCaseInsensitive_witness :
    getInstrumentByTicker [aaplInstrument] "aapl" = some aaplInstrument ∧
    postInstrument [aaplInstrument] aaplInsert none "inst-5" = (409, [aaplInstrument]) := by
  constructor
  · exact tickerLookupCaseInsensitive.1 [aaplInstrument] aaplInstrument "aapl"
      (by simp) (by simp) (by decide)
  · exact tickerLookupCaseInsensitive.2 [aaplInstrument] aaplInsert aaplInstrument
      none "inst-5" (by simp) (by decide)

end Cardfolio
